import Mathlib

/-!
Verification of the waifu query-and-fetch pipeline (shallow embedding).

The definitions below are translated from the Rust sources:
  src/api/mod.rs       — reformat_search_tags
  src/api/danbooru.rs  — fetch_api_data, grab_random_image (selection), normalization
  src/api/safebooru.rs — fetch_api_data, grab_random_image (selection + URL), normalization
  src/app.rs           — show_image_with_url (retry loop, size cap, content gate)

Strings are modelled as Lean `String` (a wrapper of `List Char`); HTTP
responses, JSON parse results and the random sampler are explicit inputs so
the stateful code becomes pure functions of those inputs.
-/

/-- Whitespace per Rust: `char::is_whitespace` and the regex class `\s`
both denote the Unicode White_Space property; this enumerates those code
points. -/
def rustIsWS (c : Char) : Bool :=
  let n := c.toNat
  decide ((0x09 ≤ n ∧ n ≤ 0x0D) ∨ n = 0x20 ∨ n = 0x85 ∨ n = 0xA0 ∨ n = 0x1680 ∨
    (0x2000 ≤ n ∧ n ≤ 0x200A) ∨ n = 0x2028 ∨ n = 0x2029 ∨ n = 0x202F ∨
    n = 0x205F ∨ n = 0x3000)

/-- Model of `str::trim`: drop whitespace from both ends. -/
def trimChars (l : List Char) : List Char :=
  ((l.dropWhile rustIsWS).reverse.dropWhile rustIsWS).reverse

/-- Fuel-indexed worker for `collapseWS`; the fuel equals the list length at
every call, so the fuel-exhausted branch is never taken from `collapseWS`. -/
def collapseGo : Nat → List Char → List Char
  | 0, l => l
  | _ + 1, [] => []
  | _ + 1, [c] => [c]
  | fuel + 1, c :: d :: rest =>
    if rustIsWS c then
      if rustIsWS d then collapseGo fuel (' ' :: rest)
      else c :: collapseGo fuel (d :: rest)
    else c :: collapseGo fuel (d :: rest)

/-- Model of `Regex::new(r"\s{2,}").replace_all(_, " ")`: every maximal run
of two or more whitespace characters becomes a single space; a lone
whitespace character is left as it is. -/
def collapseWS (l : List Char) : List Char :=
  collapseGo l.length l

/-- Model of `Regex::new(r"[,\s]").replace_all(_, "%20")`: each single
whitespace character or comma becomes the three characters `%20`. -/
def replaceDelims : List Char → List Char
  | [] => []
  | c :: rest =>
    (if rustIsWS c || c == ',' then ['%', '2', '0'] else [c]) ++ replaceDelims rest

/-- src/api/mod.rs `reformat_search_tags`: trim, collapse whitespace runs,
then replace every remaining whitespace or comma with `%20`. -/
def reformat_search_tags (tags : String) : String :=
  String.mk (replaceDelims (collapseWS (trimChars tags.data)))

theorem replaceDelims_no_delims (l : List Char) :
    ∀ c ∈ replaceDelims l, rustIsWS c = false ∧ c ≠ ',' := by
  induction l with
  | nil => simp [replaceDelims]
  | cons a t ih =>
    intro c hc
    simp only [replaceDelims, List.mem_append] at hc
    rcases hc with hc | hc
    · by_cases ha : (rustIsWS a || a == ',') = true
      · rw [if_pos ha] at hc
        simp only [List.mem_cons, List.not_mem_nil, or_false] at hc
        rcases hc with rfl | rfl | rfl <;> exact ⟨by decide, by decide⟩
      · rw [if_neg ha] at hc
        simp only [List.mem_cons, List.not_mem_nil, or_false] at hc
        subst hc
        simp only [Bool.or_eq_true, beq_iff_eq, not_or] at ha
        exact ⟨by simpa using ha.1, ha.2⟩
    · exact ih c hc

theorem dropWhile_eq_self_of_no_ws (l : List Char)
    (h : ∀ c ∈ l, rustIsWS c = false) : l.dropWhile rustIsWS = l := by
  cases l with
  | nil => rfl
  | cons a t =>
    have ha : rustIsWS a = false := h a (by simp)
    simp [List.dropWhile_cons, ha]

theorem trimChars_eq_self_of_no_ws (l : List Char)
    (h : ∀ c ∈ l, rustIsWS c = false) : trimChars l = l := by
  unfold trimChars
  rw [dropWhile_eq_self_of_no_ws l h,
    dropWhile_eq_self_of_no_ws l.reverse (fun c hc => h c (List.mem_reverse.mp hc)),
    List.reverse_reverse]

theorem collapseGo_eq_self_of_no_ws (f : Nat) (l : List Char)
    (h : ∀ c ∈ l, rustIsWS c = false) : collapseGo f l = l := by
  induction f generalizing l with
  | zero => rfl
  | succ f ih =>
    cases l with
    | nil => rfl
    | cons a t =>
      cases t with
      | nil => rfl
      | cons d r =>
        have ha : rustIsWS a = false := h a (by simp)
        rw [collapseGo, if_neg (by simp [ha])]
        rw [ih (d :: r) (fun c hc => h c (by simp [List.mem_cons] at hc ⊢; tauto))]

theorem collapseWS_eq_self_of_no_ws (l : List Char)
    (h : ∀ c ∈ l, rustIsWS c = false) : collapseWS l = l :=
  collapseGo_eq_self_of_no_ws l.length l h

theorem replaceDelims_eq_self_of_no_delims (l : List Char)
    (h : ∀ c ∈ l, rustIsWS c = false ∧ c ≠ ',') : replaceDelims l = l := by
  induction l with
  | nil => rfl
  | cons a t ih =>
    have ha := h a (by simp)
    rw [replaceDelims, if_neg (by simp [ha.1, ha.2])]
    rw [ih (fun c hc => h c (by simp [List.mem_cons] at hc ⊢; tauto))]
    rfl

/-- C1: `reformat_search_tags` trims, collapses whitespace runs, and
replaces every remaining whitespace character or comma with `%20`; the
output contains no whitespace character and no comma, and the normalization
is idempotent: applied to its own output it returns that output unchanged. -/
theorem reformat_search_tags_idempotent (s : String) :
    reformat_search_tags (reformat_search_tags s) = reformat_search_tags s ∧
    (∀ c ∈ (reformat_search_tags s).data, rustIsWS c = false ∧ c ≠ ',') := by
  have hno : ∀ c ∈ (reformat_search_tags s).data, rustIsWS c = false ∧ c ≠ ',' := by
    intro c hc
    exact replaceDelims_no_delims _ c hc
  refine ⟨?_, hno⟩
  show String.mk (replaceDelims (collapseWS (trimChars (reformat_search_tags s).data)))
      = reformat_search_tags s
  rw [trimChars_eq_self_of_no_ws _ (fun c hc => (hno c hc).1),
    collapseWS_eq_self_of_no_ws _ (fun c hc => (hno c hc).1),
    replaceDelims_eq_self_of_no_delims _ hno]

/-- Witness for C1: evaluates the normalization on the concrete input
`" cat girl,blue   hair "` and checks idempotence plus the produced value
there. -/
theorem reformat_search_tags_idempotent_witness :
    reformat_search_tags (reformat_search_tags " cat girl,blue   hair ")
      = reformat_search_tags " cat girl,blue   hair " ∧
    reformat_search_tags " cat girl,blue   hair " = "cat%20girl%20blue%20hair" := by
  refine ⟨(reformat_search_tags_idempotent " cat girl,blue   hair ").1, ?_⟩
  decide

/-! JSON values as parsed by serde_json, restricted to integer numbers
(which is all the claims exercise). A failed parse of the whole body is
represented by the surrounding `Option Json` being `none`. -/

inductive Json where
  | null : Json
  | bool (b : Bool) : Json
  | num (n : Int) : Json
  | str (s : String) : Json
  | arr (items : List Json) : Json
  | obj (fields : List (String × Json)) : Json

/-- Model of `serde_json::Value::get(key)`: field lookup on an object,
`None` on every other shape. -/
def Json.get (j : Json) (key : String) : Option Json :=
  match j with
  | .obj fields => (fields.find? (fun p => p.1 == key)).map Prod.snd
  | _ => none

/-- Model of `serde_json::Value::as_str`. -/
def Json.asStr : Json → Option String
  | .str s => some s
  | _ => none

/-- Model of `serde_json::Number::as_u64` on an integer number: defined
exactly when the value is representable as a u64. -/
def intAsU64 (n : Int) : Option Nat :=
  if 0 ≤ n ∧ n < 2 ^ 64 then some n.toNat else none

/-- Decimal digit value of a character, `none` for non-digits. -/
def digitVal (c : Char) : Option Nat :=
  if '0' ≤ c ∧ c ≤ '9' then some (c.toNat - '0'.toNat) else none

def digitsToNatAux : List Char → Nat → Option Nat
  | [], acc => some acc
  | c :: cs, acc =>
    match digitVal c with
    | some d => digitsToNatAux cs (acc * 10 + d)
    | none => none

/-- Value of a non-empty all-digit character list, `none` otherwise. -/
def digitsToNat : List Char → Option Nat
  | [] => none
  | l => digitsToNatAux l 0

/-- Model of `str::parse::<u32>`: optional leading `+`, then one or more
ASCII digits, rejected when the value exceeds `u32::MAX`. -/
def rustParseU32 (s : String) : Option Nat :=
  let cs := match s.data with
    | '+' :: r => r
    | r => r
  (digitsToNat cs).bind (fun n => if n < 2 ^ 32 then some n else none)

/-- src/api/danbooru.rs `value_to_string`: strings pass through, numbers
print, anything else becomes the empty string. -/
def value_to_string (v : Option Json) : String :=
  match v with
  | some (.str s) => s
  | some (.num n) => toString n
  | _ => ""

/-- src/api/danbooru.rs and src/api/safebooru.rs `parse_u32`: numbers go
through `as_u64` and are truncated `as u32`; strings go through
`str::parse::<u32>`; everything defaults to 0. -/
def parse_u32 (v : Option Json) : Nat :=
  match v with
  | some (.num n) => (intAsU64 n).getD 0 % 2 ^ 32
  | some (.str s) => (rustParseU32 s).getD 0
  | _ => 0

/-- src/api/danbooru.rs `parse_opt_u32`. -/
def parse_opt_u32 (v : Option Json) : Option Nat :=
  match v with
  | some (.num n) => (intAsU64 n).map (· % 2 ^ 32)
  | some (.str s) => rustParseU32 s
  | _ => none

/-! Danbooru client (src/api/danbooru.rs). -/

/-- The `ImageData` struct of src/api/danbooru.rs. -/
structure DanImage where
  source : String
  pixiv_id : Option Nat
  file_url : String
  tag_string_character : String
  tag_string_artist : String
  rating : Char
  image_width : Nat
  image_height : Nat
  tag_string : String
deriving DecidableEq

/-- The raw `file_url` value before protocol-relative rewriting: the
`file_url` field as a string, falling back to `large_file_url`, defaulting
to the empty string (danbooru.rs lines 200-204). -/
def danRawFileUrl (item : Json) : String :=
  match (item.get "file_url").bind Json.asStr with
  | some s => s
  | none => ((item.get "large_file_url").bind Json.asStr).getD ""

/-- Model of the protocol-relative rewrite (danbooru.rs lines 205-208):
when the raw URL starts with `//`, `https:` is prepended. -/
def danResolveUrl (raw : String) : String :=
  match raw.data with
  | '/' :: '/' :: _ => String.mk ('h' :: 't' :: 't' :: 'p' :: 's' :: ':' :: raw.data)
  | _ => raw

/-- Normalization of one response item into `ImageData` (danbooru.rs
lines 197-231). -/
def normalizeDanItem (item : Json) : DanImage where
  source := value_to_string (item.get "source")
  pixiv_id := parse_opt_u32 (item.get "pixiv_id")
  file_url := danResolveUrl (danRawFileUrl item)
  tag_string_character := value_to_string (item.get "tag_string_character")
  tag_string_artist := value_to_string (item.get "tag_string_artist")
  rating := (((item.get "rating").bind Json.asStr).bind (fun s => s.data.head?)).getD 's'
  image_width := parse_u32 (item.get "image_width")
  image_height := parse_u32 (item.get "image_height")
  tag_string := value_to_string (item.get "tag_string")

/-- Error classes of the danbooru `fetch_api_data` (each corresponds to one
`ResponseError` message built in the source). -/
inductive DanbooruError where
  | htmlResponse (status : Nat)
  | providerMessage (status : Nat) (message : String)
  | unexpectedResponse (status : Nat)
  | parseFailed
  | notArray
  | noResults (status : Nat)
deriving DecidableEq

/-- Model of `text.trim_start().starts_with('<')`. -/
def htmlStart (text : String) : Bool :=
  match text.data.dropWhile rustIsWS with
  | '<' :: _ => true
  | _ => false

/-- Model of `reqwest::StatusCode::is_success`: the 2xx range. -/
def statusIsSuccess (status : Nat) : Bool :=
  decide (200 ≤ status ∧ status < 300)

/-- Model of `serde_json::from_str::<FailureResponse>`: succeeds exactly
when the body parses as a JSON object whose `message` field is a string. -/
def envelopeMessage (parsed : Option Json) : Option String :=
  match parsed with
  | some (.obj fields) =>
    match (fields.find? (fun p => p.1 == "message")).map Prod.snd with
    | some (.str s) => some s
    | _ => none
  | _ => none

/-- src/api/danbooru.rs `fetch_api_data`, as a function of the HTTP status,
the body text, and the result of parsing the body as JSON (the parser is an
explicit input, so reaching it is visible in the definition). The source
compares the status against `StatusCode::OK`, i.e. exactly 200. -/
def danbooru_fetch_api_data (status : Nat) (text : String) (parsed : Option Json) :
    Except DanbooruError (List DanImage) :=
  if htmlStart text then .error (.htmlResponse status)
  else if status ≠ 200 then
    match envelopeMessage parsed with
    | some msg => .error (.providerMessage status msg)
    | none => .error (.unexpectedResponse status)
  else
    match parsed with
    | none => .error .parseFailed
    | some (.arr items) =>
      let data := items.map normalizeDanItem
      if data.isEmpty then .error (.noResults status) else .ok data
    | some _ => .error .notArray

/-- Selection in danbooru's `grab_random_image` (lines 21-29): keep records
with non-empty `file_url`, take the first; `none` models the
no-accessible-results exit. -/
def danbooruSelect (data : List DanImage) : Option DanImage :=
  (data.filter (fun img => !img.file_url.data.isEmpty)).head?

/-! Safebooru client (src/api/safebooru.rs). -/

/-- The `ImageData` struct of src/api/safebooru.rs. -/
structure SafeImage where
  directory : String
  image : String
  id : Nat
  rating : String
  width : Nat
  height : Nat
  tags : String
deriving DecidableEq

/-- String field extraction used throughout safebooru's normalization:
`item.get(k).and_then(Value::as_str).unwrap_or("")`. -/
def safeGetStr (item : Json) (key : String) : String :=
  ((item.get key).bind Json.asStr).getD ""

/-- Normalization of one safebooru response item (safebooru.rs
lines 161-195): total, every field defaults when absent or mistyped. -/
def normalizeSafeItem (item : Json) : SafeImage where
  directory := safeGetStr item "directory"
  image := safeGetStr item "image"
  id := parse_u32 (item.get "id")
  rating := safeGetStr item "rating"
  width := parse_u32 (item.get "width")
  height := parse_u32 (item.get "height")
  tags := safeGetStr item "tags"

/-- Error classes of the safebooru `fetch_api_data`. -/
inductive SafebooruError where
  | htmlResponse
  | nonSuccess (status : Nat)
  | parseFailed
  | notArray
deriving DecidableEq

/-- src/api/safebooru.rs `fetch_api_data` as a function of status, body
text and the JSON parse result; the status test is
`reqwest::StatusCode::is_success` here (unlike danbooru's `!= OK`). -/
def safebooru_fetch_api_data (status : Nat) (text : String) (parsed : Option Json) :
    Except SafebooruError (List SafeImage) :=
  if htmlStart text then .error .htmlResponse
  else if !statusIsSuccess status then .error (.nonSuccess status)
  else
    match parsed with
    | none => .error .parseFailed
    | some (.arr items) => .ok (items.map normalizeSafeItem)
    | some _ => .error .notArray

/-- Model of `Uniform::from(0..n).sample(&mut rng)`: the rand crate is an
external collaborator; its contract is a value uniformly drawn from
`[0, n)`, modelled as an arbitrary seed reduced mod n. -/
def uniformSample (seed n : Nat) : Nat :=
  seed % n

/-- The display URL built in safebooru's `grab_random_image` (lines 42-47):
`format!("https://safebooru.org//images/{dir}/{img}?{id}")` — note the
double slash before `images` in the source format string. -/
def safebooruImageUrl (img : SafeImage) : String :=
  "https://safebooru.org//images/" ++ img.directory ++ "/" ++ img.image
    ++ "?" ++ toString img.id

/-- Selection plus URL construction of safebooru's `grab_random_image`:
an empty list exits (modelled as `none`), otherwise the uniformly sampled
index picks the record whose display URL is returned. -/
def safebooruSelectUrl (data : List SafeImage) (seed : Nat) : Option String :=
  (data.get? (uniformSample seed data.length)).map safebooruImageUrl

/-! Image fetcher (src/app.rs `show_image_with_url`). -/

/-- src/app.rs `MAX_IMAGE_BYTES`: 20 MiB hard cap. -/
def MAX_IMAGE_BYTES : Nat := 20 * 1024 * 1024

/-- Whether `pre` is a prefix of `s`; models `str::starts_with` on the
character level. -/
def listStartsWith : List Char → List Char → Bool
  | [], _ => true
  | _ :: _, [] => false
  | p :: ps, c :: cs => p = c && listStartsWith ps cs

/-- The characters of `"image/"`, the content-type prefix the fetcher
accepts. -/
def imageSlash : List Char := ['i', 'm', 'a', 'g', 'e', '/']

/-- One HTTP response as seen by the image fetcher. `contentLength` is
`none` when the header is absent, `some none` when present but not
parseable as usize, `some (some n)` when it parses to `n`. The body is the
byte list the `bytes()` call would return. -/
structure HttpResponse where
  statusSuccess : Bool
  contentType : String
  contentLength : Option (Option Nat)
  body : List Nat
deriving DecidableEq

/-- The fixed diagnostic dump file (`temp_dir()/waifu_fetch_error.bin`). -/
def waifuDumpPath : String := "waifu_fetch_error.bin"

/-- Failure classes of the image fetcher; each constructor corresponds to
one `return Err(...)` in `show_image_with_url`. `rejectedContent` carries
the dump path its error message reports. `noResponse` is a model artifact
for running out of scripted responses (unreachable with three or more). -/
inductive FetchError where
  | rejectedContent (statusSuccess : Bool) (contentType : String) (dumpPath : String)
  | tooLargeDeclared (declared : Nat)
  | tooLargeActual (actual : Nat)
  | transportExhausted (attempts : Nat) (lastErr : String)
  | noResponse
deriving DecidableEq

deriving instance DecidableEq for Except

/-- Everything observable about one fetch: the result, how many send
attempts were made, the sleeps performed (in ms, in order), and the final
content of the diagnostic dump file. -/
structure FetchOutcome where
  result : Except FetchError (List Nat)
  attemptsMade : Nat
  sleepsMs : List Nat
  dumpFile : Option (List Nat)
deriving DecidableEq

/-- The final body-length check of an accepted response (app.rs
lines 254-263). -/
def fetchCheckBody (resp : HttpResponse) : Except FetchError (List Nat) :=
  if resp.body.length > MAX_IMAGE_BYTES then .error (.tooLargeActual resp.body.length)
  else .ok resp.body

/-- Handling of one successfully sent response (app.rs lines 216-263):
the status/content-type gate first (dumping the body to the diagnostic
file, overwriting it), then the declared Content-Length cap, then the
actual body-length cap. Returns the result and the dump file content. -/
def fetchAttempt (resp : HttpResponse) (dump : Option (List Nat)) :
    Except FetchError (List Nat) × Option (List Nat) :=
  if !resp.statusSuccess
      || (!resp.contentType.data.isEmpty && !listStartsWith imageSlash resp.contentType.data) then
    (.error (.rejectedContent resp.statusSuccess resp.contentType waifuDumpPath),
      some resp.body)
  else
    match resp.contentLength with
    | some (some len) =>
      if len > MAX_IMAGE_BYTES then (.error (.tooLargeDeclared len), dump)
      else (fetchCheckBody resp, dump)
    | _ => (fetchCheckBody resp, dump)

/-- The retry loop of `show_image_with_url` (app.rs lines 210-279): each
element of `responses` is the outcome of one `client.get(url).send()`.
Transport errors retry with a `200 * attempts` ms sleep until the third
attempt, which fails with the last error text; a received response always
terminates the loop. -/
def fetchImageLoop :
    List (Except String HttpResponse) → Nat → List Nat → Option (List Nat) → FetchOutcome
  | [], attempts, sleeps, dump => ⟨.error .noResponse, attempts, sleeps, dump⟩
  | .ok resp :: _, attempts, sleeps, dump =>
    let r := fetchAttempt resp dump
    ⟨r.1, attempts + 1, sleeps, r.2⟩
  | .error e :: rest, attempts, sleeps, dump =>
    if attempts + 1 ≥ 3 then
      ⟨.error (.transportExhausted (attempts + 1) e), attempts + 1, sleeps, dump⟩
    else fetchImageLoop rest (attempts + 1) (sleeps ++ [200 * (attempts + 1)]) dump

/-- The whole image fetch given the scripted transport outcomes and the
initial content of the diagnostic dump file. -/
def fetchImage (responses : List (Except String HttpResponse))
    (dump : Option (List Nat)) : FetchOutcome :=
  fetchImageLoop responses 0 [] dump

theorem danbooruSelect_mem (data : List DanImage) (img : DanImage)
    (h : danbooruSelect data = some img) :
    img ∈ data.filter (fun i => !i.file_url.data.isEmpty) := by
  unfold danbooruSelect at h
  cases hf : data.filter (fun i => !i.file_url.data.isEmpty) with
  | nil => rw [hf] at h; cases h
  | cons b t =>
    rw [hf] at h
    simp only [List.head?_cons, Option.some.injEq] at h
    subst h
    simp

/-- C2: three-tier selection is deterministic: records with empty
`file_url` are dropped and the first survivor is returned; when exactly the
record at index k has a non-empty `file_url`, selection returns record k. -/
theorem danbooruSelect_deterministic (data : List DanImage) (k : Nat) (hk : k < data.length)
    (hvalid : (data.get ⟨k, hk⟩).file_url.data.isEmpty = false)
    (hrest : ∀ (j : Nat) (hj : j < data.length), j ≠ k →
      (data.get ⟨j, hj⟩).file_url.data.isEmpty = true) :
    danbooruSelect data = some (data.get ⟨k, hk⟩) := by
  induction data generalizing k with
  | nil => exact absurd hk (by simp)
  | cons a t ih =>
    cases k with
    | zero =>
      have ha : a.file_url.data.isEmpty = false := by simpa using hvalid
      simp [danbooruSelect, List.filter_cons, ha]
    | succ k' =>
      have ha : a.file_url.data.isEmpty = true := by
        simpa using hrest 0 (by omega) (by omega)
      have hk' : k' < t.length := by simpa using hk
      have h1 : (t.get ⟨k', hk'⟩).file_url.data.isEmpty = false := by simpa using hvalid
      have h2 : ∀ (j : Nat) (hj : j < t.length), j ≠ k' →
          (t.get ⟨j, hj⟩).file_url.data.isEmpty = true := by
        intro j hj hne
        simpa using hrest (j + 1) (by simp only [List.length_cons]; omega) (by omega)
      have hsel := ih k' hk' h1 h2
      simp only [danbooruSelect, List.filter_cons, ha] at hsel ⊢
      simpa using hsel

/-- Witness for C2: a three-record list where only index 1 has a non-empty
URL; selection returns that record. -/
theorem danbooruSelect_deterministic_witness :
    danbooruSelect
        [⟨"", none, "", "", "", 's', 0, 0, ""⟩,
         ⟨"", none, "https://example.com/a.png", "", "", 's', 0, 0, ""⟩,
         ⟨"", none, "", "", "", 's', 0, 0, ""⟩]
      = some (([⟨"", none, "", "", "", 's', 0, 0, ""⟩,
         ⟨"", none, "https://example.com/a.png", "", "", 's', 0, 0, ""⟩,
         ⟨"", none, "", "", "", 's', 0, 0, ""⟩] : List DanImage).get ⟨1, by decide⟩) :=
  danbooruSelect_deterministic _ 1 (by decide) (by decide) (by decide)

/-- C7: every record surviving the pre-selection filter — in particular the
selected record — has a non-empty `file_url`; and a raw `file_url` (or
`large_file_url` fallback) value beginning with `//` is normalized to begin
with `https://`. -/
theorem danbooru_url_invariants :
    (∀ (data : List DanImage) (img : DanImage),
      img ∈ data.filter (fun i => !i.file_url.data.isEmpty) →
      img.file_url.data.isEmpty = false) ∧
    (∀ (data : List DanImage) (img : DanImage),
      danbooruSelect data = some img → img.file_url.data.isEmpty = false) ∧
    (∀ (item : Json) (t : List Char), (danRawFileUrl item).data = '/' :: '/' :: t →
      (normalizeDanItem item).file_url.data
        = 'h' :: 't' :: 't' :: 'p' :: 's' :: ':' :: '/' :: '/' :: t) := by
  have hfilter : ∀ (data : List DanImage) (img : DanImage),
      img ∈ data.filter (fun i => !i.file_url.data.isEmpty) →
      img.file_url.data.isEmpty = false := by
    intro data img hmem
    have := (List.mem_filter.mp hmem).2
    simpa using this
  refine ⟨hfilter, ?_, ?_⟩
  · intro data img hsel
    exact hfilter data img (danbooruSelect_mem data img hsel)
  · intro item t h
    show (danResolveUrl (danRawFileUrl item)).data = _
    unfold danResolveUrl
    rw [h]
    rfl

/-- Witness for C7: a protocol-relative `file_url` is rewritten to
`https://`, and the record selected from a singleton valid list has a
non-empty URL. -/
theorem danbooru_url_invariants_witness :
    (⟨"", none, "https://e/a.png", "", "", 's', 0, 0, ""⟩ : DanImage).file_url.data.isEmpty
      = false ∧
    (normalizeDanItem (Json.obj [("file_url", Json.str "//example.com/a.png")])).file_url.data
      = 'h' :: 't' :: 't' :: 'p' :: 's' :: ':' :: '/' :: '/' :: "example.com/a.png".data :=
  ⟨danbooru_url_invariants.2.1 [⟨"", none, "https://e/a.png", "", "", 's', 0, 0, ""⟩]
      ⟨"", none, "https://e/a.png", "", "", 's', 0, 0, ""⟩ rfl,
   danbooru_url_invariants.2.2 (Json.obj [("file_url", Json.str "//example.com/a.png")])
      "example.com/a.png".data rfl⟩

/-- C5: a body that begins with `<` after trimming short-circuits both
provider clients to the HTML/unexpected-response error, for every HTTP
status, and the result does not depend on the JSON parse result (the
parser is never consulted). -/
theorem html_body_short_circuits (status : Nat) (text : String) (p1 p2 : Option Json)
    (h : htmlStart text = true) :
    danbooru_fetch_api_data status text p1 = .error (.htmlResponse status) ∧
    safebooru_fetch_api_data status text p1 = .error .htmlResponse ∧
    danbooru_fetch_api_data status text p1 = danbooru_fetch_api_data status text p2 ∧
    safebooru_fetch_api_data status text p1 = safebooru_fetch_api_data status text p2 := by
  refine ⟨?_, ?_, ?_, ?_⟩ <;>
    simp [danbooru_fetch_api_data, safebooru_fetch_api_data, h]

/-- Witness for C5: at status 404 with body `"  <html>"` the danbooru
client reports the HTML error. -/
theorem html_body_short_circuits_witness :
    htmlStart "  <html>" = true ∧
    danbooru_fetch_api_data 404 "  <html>" none = .error (.htmlResponse 404) :=
  ⟨by decide,
   (html_body_short_circuits 404 "  <html>" none (some (Json.arr [])) (by decide)).1⟩

/-- C6 counterexample: HTTP 204 is a success status, yet with a parseable
failure envelope the danbooru client surfaces status+message, because the
source compares the status against `StatusCode::OK` (exactly 200) rather
than `is_success`; so a success-status response does take this path. -/
theorem danbooru_envelope_counterexample :
    statusIsSuccess 204 = true ∧
    danbooru_fetch_api_data 204 "body"
        (some (Json.obj [("message", Json.str "maintenance")]))
      = .error (.providerMessage 204 "maintenance") := by
  exact ⟨by decide, by decide⟩

/-- C6 (amended): for the three-tier provider, whenever the HTTP status is
not exactly 200 OK (and the body does not start with `<`), the client
attempts the failure envelope: a parsed `message` yields an error carrying
status and message, otherwise a generic unexpected-response error carrying
the status; status-200 responses never produce either of those errors. -/
theorem danbooru_non_ok_envelope (status : Nat) (text : String) (parsed : Option Json)
    (hhtml : htmlStart text = false) :
    (status ≠ 200 → ∀ msg, envelopeMessage parsed = some msg →
      danbooru_fetch_api_data status text parsed = .error (.providerMessage status msg)) ∧
    (status ≠ 200 → envelopeMessage parsed = none →
      danbooru_fetch_api_data status text parsed = .error (.unexpectedResponse status)) ∧
    (∀ s m, danbooru_fetch_api_data 200 text parsed ≠ .error (.providerMessage s m) ∧
      danbooru_fetch_api_data 200 text parsed ≠ .error (.unexpectedResponse s)) := by
  refine ⟨?_, ?_, ?_⟩
  · intro hs msg hm
    simp [danbooru_fetch_api_data, hhtml, hs, hm]
  · intro hs hm
    simp [danbooru_fetch_api_data, hhtml, hs, hm]
  · intro s m
    refine ⟨?_, ?_⟩ <;>
    · simp only [danbooru_fetch_api_data, hhtml, Bool.false_eq_true, if_false,
        ne_eq, not_true_eq_false]
      cases parsed with
      | none => simp
      | some j => cases j <;> simp <;> split <;> simp

/-- Witness for C6 (amended): a 404 with an envelope surfaces the message;
a 500 with an unparseable body surfaces the generic error. -/
theorem danbooru_non_ok_envelope_witness :
    danbooru_fetch_api_data 404 "body" (some (Json.obj [("message", Json.str "not found")]))
      = .error (.providerMessage 404 "not found") ∧
    danbooru_fetch_api_data 500 "body" none = .error (.unexpectedResponse 500) :=
  ⟨(danbooru_non_ok_envelope 404 "body" (some (Json.obj [("message", Json.str "not found")]))
      (by decide)).1 (by decide) "not found" rfl,
   (danbooru_non_ok_envelope 500 "body" none (by decide)).2.1 (by decide) rfl⟩

theorem fetchCheckBody_ok_le (resp : HttpResponse) (b : List Nat)
    (h : fetchCheckBody resp = .ok b) : b.length ≤ MAX_IMAGE_BYTES := by
  unfold fetchCheckBody at h
  split at h
  · exact absurd h (by simp)
  · next hle =>
    injection h with h'
    subst h'
    omega

theorem fetchImageLoop_ok_le (rs : List (Except String HttpResponse)) :
    ∀ (a : Nat) (s : List Nat) (d : Option (List Nat)) (b : List Nat),
      (fetchImageLoop rs a s d).result = .ok b → b.length ≤ MAX_IMAGE_BYTES := by
  induction rs with
  | nil =>
    intro a s d b h
    simp [fetchImageLoop] at h
  | cons r rest ih =>
    intro a s d b h
    cases r with
    | ok resp =>
      simp only [fetchImageLoop] at h
      unfold fetchAttempt at h
      split at h
      · simp at h
      · cases hc : resp.contentLength with
        | none =>
          simp only [hc] at h
          exact fetchCheckBody_ok_le resp b h
        | some inner =>
          cases inner with
          | none =>
            simp only [hc] at h
            exact fetchCheckBody_ok_le resp b h
          | some len =>
            simp only [hc] at h
            split at h
            · simp at h
            · exact fetchCheckBody_ok_le resp b h
    | error e =>
      simp only [fetchImageLoop] at h
      split at h
      · simp at h
      · exact ih _ _ _ _ h

/-- C3 (amended): the fetcher returns raw bytes only when their length is
at most `MAX_IMAGE_BYTES`; for a response that passes the
status/content-type acceptance gate, a parseable Content-Length above the
cap fails with the declared-size error, with the same outcome for every
body (the body is not read); and after reading the body the fetch fails
with the actual-size error whenever the read length exceeds the cap. -/
theorem fetch_size_cap :
    (∀ (rs : List (Except String HttpResponse)) (d : Option (List Nat)) (b : List Nat),
      (fetchImage rs d).result = .ok b → b.length ≤ MAX_IMAGE_BYTES) ∧
    (∀ (ct : String) (len : Nat) (rest : List (Except String HttpResponse))
        (d : Option (List Nat)) (body : List Nat),
      (ct.data.isEmpty || listStartsWith imageSlash ct.data) = true →
      len > MAX_IMAGE_BYTES →
      fetchImage (.ok ⟨true, ct, some (some len), body⟩ :: rest) d
        = ⟨.error (.tooLargeDeclared len), 1, [], d⟩) ∧
    (∀ (resp : HttpResponse) (rest : List (Except String HttpResponse))
        (d : Option (List Nat)),
      resp.statusSuccess = true →
      (resp.contentType.data.isEmpty || listStartsWith imageSlash resp.contentType.data) = true →
      (∀ n, resp.contentLength = some (some n) → n ≤ MAX_IMAGE_BYTES) →
      resp.body.length > MAX_IMAGE_BYTES →
      (fetchImage (.ok resp :: rest) d).result = .error (.tooLargeActual resp.body.length)) := by
  refine ⟨fun rs => fetchImageLoop_ok_le rs 0 [], ?_, ?_⟩
  · intro ct len rest d body hct hlen
    have hct' : ct.data.isEmpty = true ∨ listStartsWith imageSlash ct.data = true := by
      simpa using hct
    have hgate : (!ct.data.isEmpty && !listStartsWith imageSlash ct.data) = false := by
      rcases hct' with h | h <;> simp [h]
    simp [fetchImage, fetchImageLoop, fetchAttempt, hgate, hlen]
  · intro resp rest d hst hct hcl hbody
    have hct' : resp.contentType.data.isEmpty = true
        ∨ listStartsWith imageSlash resp.contentType.data = true := by
      simpa using hct
    have hgate : (!resp.statusSuccess
        || (!resp.contentType.data.isEmpty
          && !listStartsWith imageSlash resp.contentType.data)) = false := by
      rcases hct' with h | h <;> simp [hst, h]
    simp only [fetchImage, fetchImageLoop, fetchAttempt, hgate, Bool.false_eq_true, if_false]
    cases hc : resp.contentLength with
    | none => simp [hc, fetchCheckBody, hbody]
    | some inner =>
      cases inner with
      | none => simp [hc, fetchCheckBody, hbody]
      | some n =>
        have hn : ¬ n > MAX_IMAGE_BYTES := by
          have := hcl n hc
          omega
        simp [hc, hn, fetchCheckBody, hbody]

/-- Witness for C3: a 2-byte accepted body is returned and is under the
cap; a declared 30000000-byte Content-Length on an accepted response is
refused with the declared-size error; an over-cap body is refused with the
actual-size error. -/
theorem fetch_size_cap_witness :
    ([1, 2] : List Nat).length ≤ MAX_IMAGE_BYTES ∧
    fetchImage [.ok ⟨true, "image/png", some (some 30000000), [7]⟩] none
      = ⟨.error (.tooLargeDeclared 30000000), 1, [], none⟩ ∧
    (fetchImage [.ok ⟨true, "", none, List.replicate (MAX_IMAGE_BYTES + 1) 0⟩] none).result
      = .error (.tooLargeActual (List.replicate (MAX_IMAGE_BYTES + 1) (0 : Nat)).length) :=
  ⟨fetch_size_cap.1 [.ok ⟨true, "image/png", none, [1, 2]⟩] none [1, 2] rfl,
   fetch_size_cap.2.1 "image/png" 30000000 [] none [7] (by decide) (by decide),
   fetch_size_cap.2.2 ⟨true, "", none, List.replicate (MAX_IMAGE_BYTES + 1) 0⟩ [] none
     rfl (by decide) (fun n h => by cases h)
     (by rw [List.length_replicate]; omega)⟩

/-- C3 counterexample (to the claim as stated): with a non-success status
and a declared Content-Length of 30000000 (above the 20 MiB cap) the
fetcher does not fail before reading the body — the outcome depends on the
body, which is read and dumped — and the failure raised is the
content-rejection error, not the size error. -/
theorem fetch_size_cap_counterexample :
    30000000 > MAX_IMAGE_BYTES ∧
    fetchImage [.ok ⟨false, "", some (some 30000000), [7]⟩] none
      ≠ fetchImage [.ok ⟨false, "", some (some 30000000), [8]⟩] none ∧
    (fetchImage [.ok ⟨false, "", some (some 30000000), [7]⟩] none).result
      = .error (.rejectedContent false "" waifuDumpPath) :=
  ⟨by decide, by decide, by decide⟩

theorem fetchImageLoop_attempts_le (rs : List (Except String HttpResponse)) :
    ∀ (a : Nat) (s : List Nat) (d : Option (List Nat)), a ≤ 2 →
      (fetchImageLoop rs a s d).attemptsMade ≤ 3 := by
  induction rs with
  | nil =>
    intro a s d ha
    show a ≤ 3
    omega
  | cons r rest ih =>
    intro a s d ha
    cases r with
    | ok resp =>
      show a + 1 ≤ 3
      omega
    | error e =>
      simp only [fetchImageLoop]
      split
      · show a + 1 ≤ 3
        omega
      · next hlt => exact ih (a + 1) _ d (by omega)

theorem fetchImage_sleeps_cases (rs : List (Except String HttpResponse))
    (d : Option (List Nat)) :
    (fetchImage rs d).sleepsMs = [] ∨ (fetchImage rs d).sleepsMs = [200] ∨
      (fetchImage rs d).sleepsMs = [200, 400] := by
  rcases rs with _ | ⟨r1, rs⟩
  · left; rfl
  cases r1 with
  | ok resp => left; rfl
  | error e1 =>
    rcases rs with _ | ⟨r2, rs⟩
    · right; left; rfl
    cases r2 with
    | ok resp => right; left; rfl
    | error e2 =>
      rcases rs with _ | ⟨r3, rs⟩
      · right; right; rfl
      cases r3 with
      | ok resp => right; right; rfl
      | error e3 => right; right; rfl

/-- C4: the fetcher retries only transport-level send failures — a received
response ends the loop at that attempt, ignoring any later scripted
outcome; three consecutive transport failures exhaust the attempts with
sleeps of 200 ms then 400 ms between attempts and an error carrying the
attempt count and the last underlying error text; no run makes more than 3
attempts, and the sleep sequence is always strictly increasing. -/
theorem fetch_retry_policy :
    (∀ (e1 e2 e3 : String) (rest : List (Except String HttpResponse))
        (d : Option (List Nat)),
      fetchImage (.error e1 :: .error e2 :: .error e3 :: rest) d
        = ⟨.error (.transportExhausted 3 e3), 3, [200, 400], d⟩) ∧
    (∀ (resp : HttpResponse) (rest : List (Except String HttpResponse))
        (d : Option (List Nat)),
      fetchImage (.ok resp :: rest) d = fetchImage [.ok resp] d) ∧
    (∀ (rs : List (Except String HttpResponse)) (d : Option (List Nat)),
      (fetchImage rs d).attemptsMade ≤ 3) ∧
    (∀ (rs : List (Except String HttpResponse)) (d : Option (List Nat)),
      List.Chain' (· < ·) (fetchImage rs d).sleepsMs) := by
  refine ⟨fun e1 e2 e3 rest d => rfl, fun resp rest d => rfl,
    fun rs d => fetchImageLoop_attempts_le rs 0 [] d (by omega), ?_⟩
  intro rs d
  rcases fetchImage_sleeps_cases rs d with h | h | h <;> rw [h] <;>
    norm_num [List.chain'_cons]

/-- C8: a response is accepted only when its HTTP status is a success and
its content-type is absent/empty or starts with `image/`; a violating
response terminates the fetch at that attempt with no retry (the remaining
scripted responses are irrelevant), its body overwrites the diagnostic dump
file whatever that file held before, and the error carries the dump path. -/
theorem fetch_content_gate :
    (∀ (resp : HttpResponse) (rest : List (Except String HttpResponse))
        (d : Option (List Nat)),
      (resp.statusSuccess = false ∨
        (resp.contentType.data.isEmpty = false ∧
          listStartsWith imageSlash resp.contentType.data = false)) →
      fetchImage (.ok resp :: rest) d
        = ⟨.error (.rejectedContent resp.statusSuccess resp.contentType waifuDumpPath),
            1, [], some resp.body⟩) ∧
    (∀ (resp : HttpResponse) (rest : List (Except String HttpResponse))
        (d : Option (List Nat)) (b : List Nat),
      (fetchImage (.ok resp :: rest) d).result = .ok b →
      resp.statusSuccess = true ∧
      (resp.contentType.data.isEmpty = true ∨
        listStartsWith imageSlash resp.contentType.data = true)) := by
  constructor
  · intro resp rest d h
    have hgate : (!resp.statusSuccess
        || (!resp.contentType.data.isEmpty
          && !listStartsWith imageSlash resp.contentType.data)) = true := by
      rcases h with h | ⟨h1, h2⟩
      · simp [h]
      · simp [h1, h2]
    simp [fetchImage, fetchImageLoop, fetchAttempt, hgate]
  · intro resp rest d b h
    simp only [fetchImage, fetchImageLoop] at h
    unfold fetchAttempt at h
    split at h
    · simp at h
    · next hgate =>
      cases hs : resp.statusSuccess with
      | false => exact absurd (by simp [hs]) hgate
      | true =>
        refine ⟨rfl, ?_⟩
        cases hE : resp.contentType.data.isEmpty with
        | true => exact Or.inl rfl
        | false =>
          cases hS : listStartsWith imageSlash resp.contentType.data with
          | true => exact Or.inr rfl
          | false => exact absurd (by simp [hs, hE, hS]) hgate

/-- Witness for C8: a success-status response with content-type
`text/html` is rejected at attempt 1, its 3-byte body replacing the dump
file's previous content. -/
theorem fetch_content_gate_witness :
    fetchImage [.ok ⟨true, "text/html", none, [1, 2, 3]⟩] (some [9])
      = ⟨.error (.rejectedContent true "text/html" waifuDumpPath), 1, [], some [1, 2, 3]⟩ :=
  fetch_content_gate.1 ⟨true, "text/html", none, [1, 2, 3]⟩ [] (some [9])
    (Or.inr ⟨by decide, by decide⟩)

/-- C9 counterexample: the display URL built for a selected two-tier record
contains a double slash before `images` (the source format string is
`https://safebooru.org//images/...`), so it is not the claimed
`https://<host>/images/<directory>/<image>?<id>` value. -/
theorem safebooru_url_counterexample :
    safebooruSelectUrl [⟨"ab", "pic.png", 5, "", 0, 0, ""⟩] 0
      = some "https://safebooru.org//images/ab/pic.png?5" ∧
    some "https://safebooru.org//images/ab/pic.png?5"
      ≠ some "https://safebooru.org/images/ab/pic.png?5" := by
  constructor
  · rfl
  · decide

/-- C9 (amended): for every selected two-tier record, the display URL
handed to the image fetcher is exactly
`https://safebooru.org//images/<directory>/<image>?<id>` — with a double
slash before `images` — built from that record's fields. -/
theorem safebooru_url_shape (data : List SafeImage) (seed : Nat) (img : SafeImage)
    (h : data.get? (uniformSample seed data.length) = some img) :
    safebooruSelectUrl data seed
      = some ("https://safebooru.org//images/" ++ img.directory ++ "/" ++ img.image
          ++ "?" ++ toString img.id) := by
  simp only [safebooruSelectUrl, h, Option.map_some]
  rfl

/-- Witness for C9 (amended): a singleton list with seed 3 selects index 0
and yields the double-slash URL. -/
theorem safebooru_url_shape_witness :
    safebooruSelectUrl [⟨"d7", "img.jpg", 42, "", 0, 0, ""⟩] 3
      = some ("https://safebooru.org//images/" ++ "d7" ++ "/" ++ "img.jpg"
          ++ "?" ++ toString (42 : Nat)) :=
  safebooru_url_shape [⟨"d7", "img.jpg", 42, "", 0, 0, ""⟩] 3
    ⟨"d7", "img.jpg", 42, "", 0, 0, ""⟩ rfl

/-- C10: two-tier normalization is total and length-preserving — a parsed
array is normalized to a record list of the same length, each element
yielding exactly one record with absent or mistyped fields defaulting to
the empty string or 0 — and the uniformly sampled selection index is in
bounds whenever the list is non-empty. -/
theorem safebooru_normalization_total :
    (∀ (status : Nat) (text : String) (items : List Json) (data : List SafeImage),
      safebooru_fetch_api_data status text (some (.arr items)) = .ok data →
      data.length = items.length) ∧
    (normalizeSafeItem Json.null = ⟨"", "", 0, "", 0, 0, ""⟩ ∧
      normalizeSafeItem (Json.obj [("id", Json.bool true)]) = ⟨"", "", 0, "", 0, 0, ""⟩) ∧
    (∀ (items : List Json) (seed : Nat), items ≠ [] →
      uniformSample seed (items.map normalizeSafeItem).length
        < (items.map normalizeSafeItem).length) := by
  refine ⟨?_, ⟨rfl, rfl⟩, ?_⟩
  · intro status text items data h
    unfold safebooru_fetch_api_data at h
    split at h
    · cases h
    · split at h
      · cases h
      · injection h with h'
        subst h'
        exact List.length_map items normalizeSafeItem
  · intro items seed hne
    have : 0 < (items.map normalizeSafeItem).length := by
      simpa [List.length_map] using List.length_pos.mpr hne
    exact Nat.mod_lt seed this

/-- Witness for C10: a two-element array (one null item, one junk-typed
item) normalizes to two default records, and seed 7 samples index 1,
within bounds. -/
theorem safebooru_normalization_total_witness :
    ([Json.null, Json.obj [("id", Json.bool true)]].map normalizeSafeItem).length = 2 ∧
    uniformSample 7 ([Json.null, Json.obj [("id", Json.bool true)]].map
        normalizeSafeItem).length
      < ([Json.null, Json.obj [("id", Json.bool true)]].map normalizeSafeItem).length :=
  ⟨by
    have := safebooru_normalization_total.1 200 "x"
      [Json.null, Json.obj [("id", Json.bool true)]]
      ([Json.null, Json.obj [("id", Json.bool true)]].map normalizeSafeItem) rfl
    simp only [this]
    rfl,
   safebooru_normalization_total.2.2 [Json.null, Json.obj [("id", Json.bool true)]] 7
     (by simp)⟩
